import Mathlib

/-!
Shallow embedding of `scripts/mk_win_dist_cmake.py` (z3 Windows distribution
generator).  Pure functions model the command construction, the archive naming
and the runtime-library locator; the stateful orchestration (`main`,
`build_for_arch`, the per-architecture loops) is modelled as an event-trace
semantics: each step returns the list of observable effects it performs plus a
flag saying whether it completed without raising `MKException`.  External
effects (the filesystem walk, subprocess exit codes, the git query output) are
inputs of type `World`.
-/

namespace MkWinDist

/-- Python `needle in hay` restricted to prefix position: `leadChars p l` is
true iff the char list `p` is an initial segment of `l`. -/
def leadChars : List Char → List Char → Bool
  | [], _ => true
  | _ :: _, [] => false
  | a :: as, b :: bs => a == b && leadChars as bs

/-- Python substring test `needle in hay` (case sensitive), on char lists. -/
def subChars (needle : List Char) : List Char → Bool
  | [] => leadChars needle []
  | b :: bs => leadChars needle (b :: bs) || subChars needle bs

/-- Python `needle in hay` on strings. -/
def strContains (hay needle : String) : Bool :=
  subChars needle.toList hay.toList

/-- Suffix test for `fnmatch` on Windows: the name's last four characters,
case-folded, are ".dll".  The first arm matches exactly-four-element lists;
longer lists fall through to the recursive arm. -/
def dllSuffix : List Char → Bool
  | [p, d, l1, l2] =>
    p == '.' && (d == 'd' || d == 'D') &&
      (l1 == 'l' || l1 == 'L') && (l2 == 'l' || l2 == 'L')
  | _ :: rest => dllSuffix rest
  | [] => false

/-- `fnmatch(filename, '*.dll')` as evaluated on Windows: both the name and
the pattern are case-normalised, and the translated regex `(?s:.*\.dll)\Z`
holds iff the case-folded name ends with ".dll" (only ASCII case matters
for this pattern). -/
def fnmatch_dll (filename : String) : Bool :=
  dllSuffix filename.toList

/-- Matcher for the regex fragment `.*\.dll` (as used by `re.match` after a
literal pattern head): some split of the input consumes non-newline
characters and then reads the literal ".dll". -/
def dotStarDll : List Char → Bool
  | [] => false
  | c :: rest => leadChars ".dll".toList (c :: rest) || (c != '\n' && dotStarDll rest)

/-- `re.compile(pre + r'.*\.dll').match(filename)`: the literal head `pre`
must match at position 0, then `.*\.dll` must match the remainder. -/
def pat_match (pre filename : String) : Bool :=
  leadChars pre.toList filename.toList &&
    dotStarDll (filename.toList.drop pre.toList.length)

/-- The literal heads of `VS_RUNTIME_PATS` in source order:
`vcomp.*\.dll`, `msvcp.*\.dll`, `msvcr.*\.dll`, `vcrun.*\.dll`. -/
def VS_RUNTIME_PATS : List String :=
  ["vcomp", "msvcp", "msvcr", "vcrun"]

/-- `check_root` from `cp_vs_runtime`: the directory path must contain the
platform token and a "CRT" or "MP" token, and must contain neither "onecore"
nor "debug" (all case-sensitive substring checks). -/
def check_root (platform root : String) : Bool :=
  strContains root platform &&
    (strContains root "CRT" || strContains root "MP") &&
    !strContains root "onecore" && !strContains root "debug"

/-- Inner loop of `cp_vs_runtime` over the files of one directory: for each
file matching the `*.dll` glob under an accepted root, the pattern loop
appends `os.path.join(root, filename)` once per matching pattern.
(`os.walk` only yields regular files here, so the `isdir` guard never fires.) -/
def scan_files (platform root : String) : List String → List String
  | [] => []
  | f :: rest =>
    (if fnmatch_dll f && check_root platform root then
      (VS_RUNTIME_PATS.filter (fun p => pat_match p f)).map
        (fun _ => root ++ "\\" ++ f)
    else []) ++ scan_files platform root rest

/-- Outer loop of `cp_vs_runtime` over the `os.walk` result, modelled as the
list of `(root, files)` pairs in walk order. -/
def scan_walk (platform : String) : List (String × List String) → List String
  | [] => []
  | rf :: rest => scan_files platform rf.1 rf.2 ++ scan_walk platform rest

/-- The list `vs_runtime_files` accumulated by `cp_vs_runtime`. -/
def vs_runtime_files (platform : String)
    (walk : List (String × List String)) : List String :=
  scan_walk platform walk

/-- `cp_vs_runtime`'s outcome before the copies: raises
`MKException("Did not find any runtime files to include")` iff the
accumulated list is empty. -/
def cp_vs_runtime_result (platform : String)
    (walk : List (String × List String)) : Except String (List String) :=
  if (vs_runtime_files platform walk).isEmpty then
    Except.error "Did not find any runtime files to include"
  else Except.ok (vs_runtime_files platform walk)

/-- Modelled from the spec: the runtime-file acceptance predicate of
section 4.6 — a `*.dll`-glob name, a directory containing the platform token
and a "CRT"/"MP" token but no "onecore"/"debug" token, and a filename
matching at least one of the four runtime-library patterns. -/
def runtime_file_spec (platform root filename : String) : Bool :=
  (fnmatch_dll filename && check_root platform root) &&
    VS_RUNTIME_PATS.any (fun p => pat_match p filename)

/-- Modelled from the spec: `locate(arch, toolchainRoot)` as a plain filter
of the walk by `runtime_file_spec`, used to compare against the source's
pattern-loop implementation. -/
def spec_runtime_files (platform : String) :
    List (String × List String) → List String
  | [] => []
  | rf :: rest =>
    (rf.2.filter (runtime_file_spec platform rf.1)).map
      (fun fn => rf.1 ++ "\\" ++ fn) ++ spec_runtime_files platform rest

/-- The fixed architecture identifiers (keys of the `ARCHS` dict). -/
inductive Arch
  | x64
  | x86
  | arm64
deriving DecidableEq, Repr

/-- The architecture's string key, as used in paths, command lines and
distribution names. -/
def Arch.name : Arch → String
  | .x64 => "x64"
  | .x86 => "x86"
  | .arm64 => "arm64"

/-- Iteration order of the `ARCHS` dict (Python dicts preserve insertion
order): `{'x64': ..., 'x86': ..., 'arm64': ...}`. -/
def ARCHS : List Arch := [Arch.x64, Arch.x86, Arch.arm64]

/-- `DIST_DIR` global. -/
def DIST_DIR : String := "dist"

/-- `ARCHS[arch]` with the default build root `build-dist`
(`os.path.join` uses the Windows separator; the script refuses to run on
any other OS). -/
def build_path (a : Arch) : String := "build-dist\\" ++ a.name

/-- The script's resolved global configuration after `parse_options`
(defaults are the module-level initial values). -/
structure Config where
  dotnet_core_enabled : Bool := true
  java_enabled : Bool := true
  python_enabled : Bool := true
  git_hash : Bool := false
  zip_build_outputs : Bool := false
  force_mk : Bool := false
  assembly_version : Option String := none
deriving DecidableEq, Repr

/-- All external inputs observed during a run: whether each architecture's
build directory already passes `check_build_dir` (directory exists and
contains `Makefile`), the raw stdout of the `git show-ref` query (`none`
models the subprocess raising), the exit status of each `subprocess.call`
on the generated command script (`none` models `subprocess.call` itself
raising), and the `os.walk` result over `%VCINSTALLDIR%redist`. -/
structure World where
  configured : Arch → Bool
  gitOut : Option String
  execResult : Arch → Bool → Option Int
  walk : List (String × List String)

/-- Python `r.split(' ')` on char lists: split on every single space and
keep empty fields, so `""` splits to `[""]`. -/
def splitSpace : List Char → List (List Char)
  | [] => [[]]
  | c :: rest =>
    let r := splitSpace rest
    if c == ' ' then [] :: r
    else (c :: r.headD []) :: r.tail

/-- `get_git_hash`: on query failure raises
`MKException("Failed to retrieve git hash")`; otherwise splits the output on
a single space and demands exactly a (hash, ref-name) pair, returning the
hash field. -/
def get_git_hash (gitOut : Option String) : Except String String :=
  match gitOut with
  | none => Except.error "Failed to retrieve git hash"
  | some r =>
    let ls := splitSpace r.toList
    if ls.length = 2 then Except.ok (String.mk (ls.headD []))
    else Except.error ("Unexpected git output " ++ r)

/-- The version used by `get_z3_name`: `ASSEMBLY_VERSION` when truthy
(a `Some ""` is falsy in Python and keeps the default), else `"4"`. -/
def z3_version (c : Config) : String :=
  match c.assembly_version with
  | some v => if v.toList.isEmpty then "4" else v
  | none => "4"

/-- `get_z3_name(arch)`: `z3-<version>-<arch>-win`, or with `--githash`
`z3-<version>.<hash>-<arch>-win` (the hash is joined by `'.'`); resolving
the hash re-runs `get_git_hash`, so its failure propagates. -/
def get_z3_name (c : Config) (w : World) (a : Arch) : Except String String :=
  if c.git_hash then
    (get_git_hash w.gitOut).map
      (fun h => "z3-" ++ z3_version c ++ "." ++ h ++ "-" ++ a.name ++ "-win")
  else
    Except.ok ("z3-" ++ z3_version c ++ "-" ++ a.name ++ "-win")

/-- Flags appended to the cmake invocation when .NET bindings are enabled. -/
def dotnetFlags : List String :=
  [" -DZ3_BUILD_DOTNET_BINDINGS=ON", " -DZ3_INSTALL_DOTNET_BINDINGS=ON"]

/-- Flags appended to the cmake invocation when Java bindings are enabled. -/
def javaFlags : List String :=
  [" -DZ3_BUILD_JAVA_BINDINGS=ON", " -DZ3_INSTALL_JAVA_BINDINGS=ON",
   " -DZ3_JAVA_JAR_INSTALLDIR=java", " -DZ3_JAVA_JNI_LIB_INSTALLDIR=java"]

/-- Flags appended to the cmake invocation when Python bindings are enabled. -/
def pythonFlags : List String :=
  [" -DZ3_BUILD_PYTHON_BINDINGS=ON", " -DZ3_INSTALL_PYTHON_BINDINGS=ON",
   " -DCMAKE_INSTALL_PYTHON_PKG_DIR=python"]

/-- The fixed trailing cmake flags of `mk_build_dir`. -/
def cmakeTail : List String :=
  [" -DZ3_USE_LIB_GMP=OFF", " -DZ3_BUILD_LIBZ3_SHARED=ON",
   " -DCMAKE_BUILD_TYPE=RelWithDebInfo", " -DCMAKE_INSTALL_PREFIX=" ++ DIST_DIR,
   " -G \"NMake Makefiles\"", " ../..\n"]

/-- The `cmd` list built piecewise by `mk_build_dir` (joined with `""` into
one cmake command line).  `githash` is the already-resolved hash; it is
only consulted when `git_hash` is set. -/
def cmake_pieces (c : Config) (githash : String) : List String :=
  ["cmake -S ."]
  ++ (if c.dotnet_core_enabled then dotnetFlags else [])
  ++ (if c.java_enabled then javaFlags else [])
  ++ (if c.python_enabled then pythonFlags else [])
  ++ (if c.git_hash then [" -DGIT_HASH=" ++ githash] else [])
  ++ cmakeTail

/-- The vcvarsall argument used by the configure step (`mk_build_dir` maps
"arm64" to the cross pair "amd64_arm64"). -/
def vcArchConfigure (a : Arch) : String :=
  match a with
  | .arm64 => "amd64_arm64"
  | _ => a.name

/-- The vcvarsall argument used by the install step (`mk_z3` maps "arm64"
to "x64_arm64" — deliberately different from the configure-step mapping). -/
def vcArchInstall (a : Arch) : String :=
  match a with
  | .arm64 => "x64_arm64"
  | _ => a.name

/-- The command list passed to `exec_cmds` by `mk_build_dir`. -/
def configure_cmds (c : Config) (a : Arch) (githash : String) : List String :=
  ["cd " ++ build_path a,
   "call \"C:\\Program Files\\Microsoft Visual Studio\\2022\\Enterprise\\VC\\Auxiliary\\Build\\vcvarsall.bat\" "
     ++ vcArchConfigure a,
   String.join (cmake_pieces c githash)]

/-- The command list passed to `exec_cmds` by `mk_z3`. -/
def install_cmds (a : Arch) : List String :=
  ["call \"%VCINSTALLDIR%Auxiliary\\build\\vcvarsall.bat\" " ++ vcArchInstall a,
   "cd " ++ build_path a,
   "nmake install"]

/-- The write loop of `exec_cmds`: `f.write(cmd); f.write('\n')` for each
command, accumulating the script file's content. -/
def write_script : List String → String → String
  | [], acc => acc
  | cmd :: rest, acc => write_script rest (acc ++ cmd ++ "\n")

/-- Modelled from the spec: the intended script content — each command on
its own line, in order. -/
def script_spec (cmds : List String) : String :=
  cmds.foldr (fun cmd acc => cmd ++ "\n" ++ acc) ""

/-- `exec_cmds`: writes the script, runs it with `subprocess.call`
(`callResult = none` models the call itself raising, turned into exit
status 1 by the bare `except`), and best-effort deletes the script (the
deletion in fact always fails — `os.erase` does not exist — and the
failure is swallowed).  Returns (script content, exit status). -/
def exec_cmds (cmds : List String) (callResult : Option Int) : String × Int :=
  (write_script cmds "",
   match callResult with
   | some r => r
   | none => 1)

/-- Compression constant passed to `zipfile.ZipFile` (`ZIP_DEFLATED`). -/
inductive Compression
  | deflated
  | stored
deriving DecidableEq, Repr

/-- The archive file created by `mk_zip`: its filename, the compression it
was opened with, and the entries actually written into it. -/
structure ZipArtifact where
  zfname : String
  compression : Compression
  entries : List String
deriving DecidableEq, Repr

/-- Observable effects of a pipeline run. -/
inductive Event
  | mkdirE (a : Arch)
  | execConfigure (a : Arch)
  | execInstall (a : Arch)
  | copyLicense (a : Arch)
  | copyRuntime (a : Arch)
  | writeZip (a : Arch) (z : ZipArtifact)
deriving DecidableEq, Repr

/-- The architecture an event belongs to. -/
def evArch : Event → Arch
  | .mkdirE a => a
  | .execConfigure a => a
  | .execInstall a => a
  | .copyLicense a => a
  | .copyRuntime a => a
  | .writeZip a _ => a

/-- Sequential composition with Python exception semantics: if the first
step raised, the second never runs and its effects are lost. -/
def seq2 (r s : List Event × Bool) : List Event × Bool :=
  if r.2 then (r.1 ++ s.1, s.2) else r

/-- A `for k in ARCHS` loop over per-architecture steps: an exception in
one iteration propagates and stops the loop. -/
def run_loop (step : Arch → List Event × Bool) : List Arch → List Event × Bool
  | [] => ([], true)
  | a :: rest => seq2 (step a) (run_loop step rest)

/-- `w.execResult a true` is the exit status of the configure session for
`a`; `w.execResult a false` that of the install session. -/
def SESS_CONFIGURE : Bool := true

/-- Install-session selector for `World.execResult`. -/
def SESS_INSTALL : Bool := false

/-- `mk_build_dir(arch)`: skipped entirely when `check_build_dir` holds and
`--force` is not set; otherwise creates the directory, resolves the git
hash when `--githash` is set (raising before `exec_cmds` if that fails),
builds the command list and runs it, raising on a non-zero exit status. -/
def mk_build_dir_step (c : Config) (w : World) (a : Arch) :
    List Event × Bool :=
  if !(w.configured a) || c.force_mk then
    match (if c.git_hash then get_git_hash w.gitOut else Except.ok "") with
    | Except.error _ => ([Event.mkdirE a], false)
    | Except.ok h =>
      ([Event.mkdirE a, Event.execConfigure a],
       (exec_cmds (configure_cmds c a h) (w.execResult a SESS_CONFIGURE)).2 == 0)
  else ([], true)

/-- `mk_z3(arch)`: runs the install session, raising on non-zero exit. -/
def mk_z3_step (w : World) (a : Arch) : List Event × Bool :=
  ([Event.execInstall a],
   (exec_cmds (install_cmds a) (w.execResult a SESS_INSTALL)).2 == 0)

/-- `cp_license(arch)`: copies LICENSE.txt to
`os.path.join(DIST_DIR, get_z3_name(arch))`; `get_z3_name` may re-query
git and raise.  The copy itself is assumed to succeed. -/
def cp_license_step (c : Config) (w : World) (a : Arch) : List Event × Bool :=
  match get_z3_name c w a with
  | Except.error _ => ([], false)
  | Except.ok _ => ([Event.copyLicense a], true)

/-- `cp_vs_runtime(arch)`: walks the redist tree, raising when no runtime
file is found, else copies every found file into the install `bin`
directory. -/
def cp_vs_runtime_step (w : World) (a : Arch) : List Event × Bool :=
  match cp_vs_runtime_result a.name w.walk with
  | Except.error _ => ([], false)
  | Except.ok _ => ([Event.copyRuntime a], true)

/-- `mk_zip(arch)`: resolves the distribution name (outside the `try`, so a
git failure propagates), then creates `<name>.zip` with `ZIP_DEFLATED`
inside the install tree.  The entry-writing walk references the undefined
name `dist_path`, so it raises `NameError` immediately; the blanket
`except: pass` swallows it and the archive is left with no entries. -/
def mk_zip_step (c : Config) (w : World) (a : Arch) : List Event × Bool :=
  match get_z3_name c w a with
  | Except.error _ => ([], false)
  | Except.ok n =>
    ([Event.writeZip a ⟨n ++ ".zip", Compression.deflated, []⟩], true)

/-- `build_for_arch(arch)`: the single-architecture pipeline. -/
def build_for_arch (c : Config) (w : World) (a : Arch) : List Event × Bool :=
  seq2 (mk_build_dir_step c w a) <|
  seq2 (mk_z3_step w a) <|
  seq2 (cp_license_step c w a) <|
  seq2 (cp_vs_runtime_step w a)
    (if c.zip_build_outputs then mk_zip_step c w a else ([], true))

/-- The architecture scope selected by the command-line options. -/
inductive Scope
  | x86only
  | x64only
  | arm64only
  | allArchs
deriving DecidableEq, Repr

/-- `main()` after option parsing: one `build_for_arch` for a single-scope
run, else the stage loops `mk_build_dirs`; `mk_z3s`; `cp_licenses`;
`cp_vs_runtimes`; and, with `--zip`, `mk_zips`. -/
def main_run (c : Config) (w : World) : Scope → List Event × Bool
  | .x86only => build_for_arch c w Arch.x86
  | .x64only => build_for_arch c w Arch.x64
  | .arm64only => build_for_arch c w Arch.arm64
  | .allArchs =>
    seq2 (run_loop (mk_build_dir_step c w) ARCHS) <|
    seq2 (run_loop (mk_z3_step w) ARCHS) <|
    seq2 (run_loop (cp_license_step c w) ARCHS) <|
    seq2 (run_loop (cp_vs_runtime_step w) ARCHS)
      (if c.zip_build_outputs then run_loop (mk_zip_step c w) ARCHS
       else ([], true))

/-- Boolean error test on a `cp_vs_runtime` outcome. -/
def isErrRT : Except String (List String) → Bool
  | .error _ => true
  | .ok _ => false

/-- Insertion of a flag block at position `n` of a command-piece list. -/
def insertAt (n : Nat) (blk l : List String) : List String :=
  l.take n ++ blk ++ l.drop n

/-- A CRT redistributable directory of the shape named in the spec's
runtime-locator scenario. -/
def crtRoot : String := "x64\\VC\\Redist\\MSVC\\14.x\\x64\\Microsoft.VC143.CRT"

/-- The same directory under a `debug` path segment. -/
def debugRoot : String :=
  "x64\\VC\\Redist\\MSVC\\14.x\\debug\\x64\\Microsoft.VC143.CRT"

/-- A synthetic walk holding one x64 CRT runtime library. -/
def crtWalk : List (String × List String) := [(crtRoot, ["vcruntime140.dll"])]

/-- The same runtime library under a `debug` directory. -/
def debugWalk : List (String × List String) :=
  [(debugRoot, ["vcruntime140.dll"])]

/-- A walk holding one CRT runtime library for each architecture. -/
def allWalk : List (String × List String) :=
  [("redist\\x64\\Microsoft.VC143.CRT", ["vcruntime140.dll"]),
   ("redist\\x86\\Microsoft.VC143.CRT", ["vcruntime140.dll"]),
   ("redist\\arm64\\Microsoft.VC143.CRT", ["vcruntime140.dll"])]

/-- Scenario config of spec section 8: no optional components, archiving
on, default version, no revision. -/
def cfgC3 : Config :=
  { dotnet_core_enabled := false, java_enabled := false,
    python_enabled := false, zip_build_outputs := true }

/-- Scenario world: every workspace already configured, all sessions
succeed, the walk holds the x64 CRT runtime. -/
def wC3 : World :=
  { configured := fun _ => true, gitOut := none,
    execResult := fun _ _ => some 0, walk := crtWalk }

/-- All-default configuration. -/
def cfg0 : Config := {}

/-- World in which the x64 configure session exits with status 1 and
everything else succeeds. -/
def wC1 : World :=
  { configured := fun _ => false,
    gitOut := some "deadbeef refs/heads/master",
    execResult := fun a k =>
      match a, k with
      | Arch.x64, true => some 1
      | _, _ => some 0,
    walk := allWalk }

/-- World in which every configure session and x64's install session exit
with status 0, but the x86 install session exits with status 1. -/
def wInstFail : World :=
  { configured := fun _ => false,
    gitOut := some "deadbeef refs/heads/master",
    execResult := fun a k =>
      match a, k with
      | Arch.x86, false => some 1
      | _, _ => some 0,
    walk := allWalk }

/-- Default components with archiving enabled. -/
def cfgZip : Config := { zip_build_outputs := true }

/-- Fully successful world: nothing configured yet, every session exits 0,
runtime files present for every architecture. -/
def wOk : World :=
  { configured := fun _ => false,
    gitOut := some "deadbeef refs/heads/master",
    execResult := fun _ _ => some 0, walk := allWalk }

/-- Configuration with `--githash`. -/
def cfgGit : Config := { git_hash := true }

/-- World whose git query resolves to hash `abc123`. -/
def wGit : World :=
  { configured := fun _ => false,
    gitOut := some "abc123 refs/heads/master",
    execResult := fun _ _ => some 0, walk := allWalk }

/-- World whose git query returns zero refs (empty `git show-ref` output),
so the (hash, ref) parse fails. -/
def wGitFail : World :=
  { configured := fun _ => false, gitOut := some "",
    execResult := fun _ _ => some 0, walk := crtWalk }

/-- Configuration with only Java bindings enabled. -/
def cfgJavaOnly : Config :=
  { dotnet_core_enabled := false, java_enabled := true,
    python_enabled := false }

/-- Configuration with no optional component enabled. -/
def cfgNoComp : Config :=
  { dotnet_core_enabled := false, java_enabled := false,
    python_enabled := false }

/-- Two initial segments of the same char list with equal lengths
coincide. -/
theorem leadChars_unique : ∀ (l p q : List Char), leadChars p l = true →
    leadChars q l = true → p.length = q.length → p = q := by
  intro l
  induction l with
  | nil =>
    intro p q hp hq hl
    cases p with
    | nil =>
      cases q with
      | nil => rfl
      | cons b bs => simp at hl
    | cons a as => simp [leadChars] at hp
  | cons c cs ih =>
    intro p q hp hq hl
    cases p with
    | nil =>
      cases q with
      | nil => rfl
      | cons b bs => simp at hl
    | cons a as =>
      cases q with
      | nil => simp at hl
      | cons b bs =>
        simp only [leadChars, Bool.and_eq_true, beq_iff_eq] at hp hq
        obtain ⟨rfl, hp'⟩ := hp
        obtain ⟨rfl, hq'⟩ := hq
        simp only [List.length_cons, Nat.add_right_cancel_iff] at hl
        rw [ih as bs hp' hq' hl]

/-- Two distinct pattern heads of the same length cannot both match one
filename: a filename determines its 5-character head. -/
theorem two_pat (p q f : String) (hlen : p.toList.length = q.toList.length)
    (hne : p.toList ≠ q.toList) (hp : pat_match p f = true)
    (hq : pat_match q f = true) : False := by
  simp only [pat_match, Bool.and_eq_true] at hp hq
  exact hne (leadChars_unique f.toList p.toList q.toList hp.1 hq.1 hlen)

/-- The per-file pattern loop appends the joined path at most once: the four
runtime patterns have pairwise-distinct heads of equal length, so the loop
collapses to a single any-pattern test. -/
theorem pats_filter_eq (f path : String) :
    (VS_RUNTIME_PATS.filter (fun p => pat_match p f)).map (fun _ => path) =
      if VS_RUNTIME_PATS.any (fun p => pat_match p f) then [path] else [] := by
  cases h1 : pat_match "vcomp" f <;> cases h2 : pat_match "msvcp" f <;>
  cases h3 : pat_match "msvcr" f <;> cases h4 : pat_match "vcrun" f <;>
  simp [VS_RUNTIME_PATS, List.filter, List.any, h1, h2, h3, h4] <;>
  exfalso <;>
  first
  | exact two_pat "vcomp" "msvcp" f (by decide) (by decide) h1 h2
  | exact two_pat "vcomp" "msvcr" f (by decide) (by decide) h1 h3
  | exact two_pat "vcomp" "vcrun" f (by decide) (by decide) h1 h4
  | exact two_pat "msvcp" "msvcr" f (by decide) (by decide) h2 h3
  | exact two_pat "msvcp" "vcrun" f (by decide) (by decide) h2 h4
  | exact two_pat "msvcr" "vcrun" f (by decide) (by decide) h3 h4

/-- The source's per-directory loop equals the spec-side filter. -/
theorem scan_files_eq (platform root : String) : ∀ fs : List String,
    scan_files platform root fs =
      (fs.filter (runtime_file_spec platform root)).map
        (fun fn => root ++ "\\" ++ fn) := by
  intro fs
  induction fs with
  | nil => rfl
  | cons f rest ih =>
    simp only [scan_files, ih, List.filter_cons]
    cases hm : fnmatch_dll f && check_root platform root with
    | false =>
      simp only [Bool.false_eq_true, if_false, List.nil_append]
      have : runtime_file_spec platform root f = false := by
        simp only [runtime_file_spec, hm, Bool.false_and]
      simp [this]
    | true =>
      simp only [if_true, pats_filter_eq]
      cases ha : VS_RUNTIME_PATS.any (fun p => pat_match p f) with
      | false =>
        have : runtime_file_spec platform root f = false := by
          simp only [runtime_file_spec, hm, ha, Bool.true_and]
        simp [this, ha]
      | true =>
        have : runtime_file_spec platform root f = true := by
          simp only [runtime_file_spec, hm, ha, Bool.true_and]
        simp [this, ha]

/-- The source's walk loop equals the spec-side locator. -/
theorem scan_walk_eq (platform : String) : ∀ walk : List (String × List String),
    scan_walk platform walk = spec_runtime_files platform walk := by
  intro walk
  induction walk with
  | nil => rfl
  | cons rf rest ih =>
    simp only [scan_walk, spec_runtime_files, ih, scan_files_eq]

/-- A raised exception short-circuits sequential composition. -/
theorem seq2_false {r s : List Event × Bool} (h : r.2 = false) :
    seq2 r s = r := by
  simp [seq2, h]

/-- A successful first step contributes its effects and hands over. -/
theorem seq2_true {r s : List Event × Bool} (h : r.2 = true) :
    seq2 r s = (r.1 ++ s.1, s.2) := by
  simp [seq2, h]

/-- A loop whose every iteration succeeds succeeds. -/
theorem run_loop_ok (step : Arch → List Event × Bool) :
    ∀ l : List Arch, (∀ b ∈ l, (step b).2 = true) →
    (run_loop step l).2 = true := by
  intro l
  induction l with
  | nil => intro _; rfl
  | cons b rest ih =>
    intro hl
    have hb := hl b (by simp)
    show (seq2 (step b) (run_loop step rest)).2 = true
    rw [seq2_true hb]
    exact ih (fun x hx => hl x (by simp [hx]))

/-- A loop whose iterations succeed up to a failing architecture `a` stops
at `a`: the trace is the successful prefix plus `a`'s effects, and the
exception propagates (the remaining iterations never run). -/
theorem run_loop_fail_mid (step : Arch → List Event × Bool) (a : Arch)
    (hfail : (step a).2 = false) :
    ∀ (l1 l2 : List Arch), (∀ b ∈ l1, (step b).2 = true) →
    run_loop step (l1 ++ a :: l2) =
      ((run_loop step l1).1 ++ (step a).1, false) := by
  intro l1
  induction l1 with
  | nil =>
    intro l2 _
    show seq2 (step a) (run_loop step l2) = (([] : List Event) ++ (step a).1, false)
    rw [seq2_false hfail, List.nil_append, ← hfail]
  | cons b rest ih =>
    intro l2 hl
    have hb := hl b (by simp)
    show seq2 (step b) (run_loop step (rest ++ a :: l2)) = _
    rw [seq2_true hb, ih l2 (fun x hx => hl x (by simp [hx]))]
    show ((step b).1 ++ ((run_loop step rest).1 ++ (step a).1), false) =
      ((seq2 (step b) (run_loop step rest)).1 ++ (step a).1, false)
    rw [seq2_true hb, List.append_assoc]

/-- Every event a loop emits comes from one of its iterations. -/
theorem run_loop_events (step : Arch → List Event × Bool) (P : Event → Prop) :
    ∀ l : List Arch, (∀ b ∈ l, ∀ e ∈ (step b).1, P e) →
    ∀ e ∈ (run_loop step l).1, P e := by
  intro l
  induction l with
  | nil => intro _ e he; simp [run_loop] at he
  | cons b rest ih =>
    intro hl e he
    by_cases hb : (step b).2 = true
    · rw [show run_loop step (b :: rest) = seq2 (step b) (run_loop step rest)
        from rfl, seq2_true hb] at he
      simp only [List.mem_append] at he
      rcases he with he | he
      · exact hl b (by simp) e he
      · exact ih (fun x hx => hl x (by simp [hx])) e he
    · rw [show run_loop step (b :: rest) = seq2 (step b) (run_loop step rest)
        from rfl, seq2_false (by simpa using hb)] at he
      exact hl b (by simp) e he

/-- `mk_build_dir(arch)` emits only its own directory-creation and
configure-session events. -/
theorem mk_build_dir_shape (c : Config) (w : World) (x : Arch) :
    ∀ e ∈ (mk_build_dir_step c w x).1,
      e = Event.mkdirE x ∨ e = Event.execConfigure x := by
  intro e he
  unfold mk_build_dir_step at he
  split at he
  · split at he
    · simp only [List.mem_singleton] at he
      exact Or.inl he
    · simp only [List.mem_cons, List.mem_singleton, List.not_mem_nil,
        or_false] at he
      rcases he with rfl | rfl
      · exact Or.inl rfl
      · exact Or.inr rfl
  · simp at he

/-- The imperative write loop of `exec_cmds` produces the line-per-command
script. -/
theorem write_script_eq : ∀ (cmds : List String) (acc : String),
    write_script cmds acc = acc ++ script_spec cmds := by
  intro cmds
  induction cmds with
  | nil => intro acc; simp [write_script, script_spec, String.append_empty]
  | cons ccmd rest ih =>
    intro acc
    simp only [write_script, script_spec, List.foldr] at *
    rw [ih]
    simp [String.append_assoc]

/-- C1, counterexample: in the all-architectures run where only the x64
configure session fails (exit 1), the run stops after x64's configure —
the claim that the remaining architectures keep being processed is false:
no x86 (or arm64) event ever occurs. -/
theorem C1_counterexample :
    main_run cfg0 wC1 Scope.allArchs =
      ([Event.mkdirE Arch.x64, Event.execConfigure Arch.x64], false) ∧
    Event.execConfigure Arch.x86 ∉ (main_run cfg0 wC1 Scope.allArchs).1 ∧
    Event.execInstall Arch.x86 ∉ (main_run cfg0 wC1 Scope.allArchs).1 := by
  decide

/-- C1, amended: a toolchain execution failure (non-zero exit from a
configure or install session) in ANY architecture's pipeline aborts the
WHOLE all-architectures run at that point, not just that architecture's
pipeline.  For any split `ARCHS = l1 ++ a :: l2`: if `a`'s configure
session fails after the `l1` configures succeeded, the run ends with
exactly those configure-stage events — every event belongs to `l1` or to
`a`, so the architectures in `l2` are never processed; if `a`'s install
session fails after all configures and the `l1` installs succeeded, the
run ends with the configure stage plus those install events — the
packaging stages never run and no architecture in `l2` is ever
installed. -/
theorem C1_amended (c : Config) (w : World) (l1 l2 : List Arch) (a : Arch)
    (hsplit : ARCHS = l1 ++ a :: l2) :
    ((∀ b ∈ l1, (mk_build_dir_step c w b).2 = true) →
      (mk_build_dir_step c w a).2 = false →
      main_run c w Scope.allArchs =
        ((run_loop (mk_build_dir_step c w) l1).1 ++
          (mk_build_dir_step c w a).1, false) ∧
      ∀ e ∈ (main_run c w Scope.allArchs).1,
        evArch e ∈ l1 ∨ evArch e = a) ∧
    ((∀ b ∈ ARCHS, (mk_build_dir_step c w b).2 = true) →
      (∀ b ∈ l1, (mk_z3_step w b).2 = true) →
      (mk_z3_step w a).2 = false →
      main_run c w Scope.allArchs =
        ((run_loop (mk_build_dir_step c w) ARCHS).1 ++
          ((run_loop (mk_z3_step w) l1).1 ++ (mk_z3_step w a).1), false) ∧
      (∀ b, Event.copyLicense b ∉ (main_run c w Scope.allArchs).1) ∧
      ∀ b ∈ l2, Event.execInstall b ∉ (main_run c w Scope.allArchs).1) := by
  constructor
  · intro hok hfail
    have hmain : main_run c w Scope.allArchs =
        ((run_loop (mk_build_dir_step c w) l1).1 ++
          (mk_build_dir_step c w a).1, false) := by
      show seq2 (run_loop (mk_build_dir_step c w) ARCHS) _ = _
      rw [hsplit, run_loop_fail_mid _ a hfail l1 l2 hok]
      exact seq2_false rfl
    refine ⟨hmain, ?_⟩
    rw [hmain]
    intro e he
    simp only [List.mem_append] at he
    rcases he with he | he
    · exact Or.inl (run_loop_events _ (fun e => evArch e ∈ l1) l1
        (fun b hb e' he' => by
          rcases mk_build_dir_shape c w b e' he' with rfl | rfl <;>
            simpa [evArch] using hb)
        e he)
    · rcases mk_build_dir_shape c w a e he with rfl | rfl <;> simp [evArch]
  · intro hcall hinst hfail
    have hconf2 : (run_loop (mk_build_dir_step c w) ARCHS).2 = true :=
      run_loop_ok _ ARCHS hcall
    have hmain : main_run c w Scope.allArchs =
        ((run_loop (mk_build_dir_step c w) ARCHS).1 ++
          ((run_loop (mk_z3_step w) l1).1 ++ (mk_z3_step w a).1), false) := by
      show seq2 (run_loop (mk_build_dir_step c w) ARCHS)
        (seq2 (run_loop (mk_z3_step w) ARCHS) _) = _
      rw [seq2_true hconf2,
        show run_loop (mk_z3_step w) ARCHS =
          ((run_loop (mk_z3_step w) l1).1 ++ (mk_z3_step w a).1, false) from by
            rw [hsplit]; exact run_loop_fail_mid _ a hfail l1 l2 hinst,
        seq2_false rfl]
    have hconfP : ∀ e ∈ (run_loop (mk_build_dir_step c w) ARCHS).1,
        ∃ x, e = Event.mkdirE x ∨ e = Event.execConfigure x :=
      run_loop_events _ _ ARCHS
        (fun b _ e he => ⟨b, mk_build_dir_shape c w b e he⟩)
    have hinstP : ∀ e ∈ (run_loop (mk_z3_step w) l1).1,
        ∃ x, x ∈ l1 ∧ e = Event.execInstall x :=
      run_loop_events _ _ l1 (fun b hb e he => by
        simp only [mk_z3_step, List.mem_singleton] at he
        exact ⟨b, hb, he⟩)
    have hnd : (l1 ++ a :: l2).Nodup := by
      rw [← hsplit]; decide
    have hdisj : List.Disjoint l1 (a :: l2) := (List.nodup_append.mp hnd).2.2
    have hal2 : a ∉ l2 :=
      (List.nodup_cons.mp (List.nodup_append.mp hnd).2.1).1
    refine ⟨hmain, ?_, ?_⟩
    · intro b hb
      rw [hmain] at hb
      simp only [List.mem_append] at hb
      rcases hb with hb | hb | hb
      · rcases hconfP _ hb with ⟨x, hx | hx⟩ <;> simp at hx
      · rcases hinstP _ hb with ⟨x, _, hx⟩
        simp at hx
      · simp [mk_z3_step] at hb
    · intro b hbl2 hb
      rw [hmain] at hb
      simp only [List.mem_append] at hb
      rcases hb with hb | hb | hb
      · rcases hconfP _ hb with ⟨x, hx | hx⟩ <;> simp at hx
      · rcases hinstP _ hb with ⟨x, hxl1, hx⟩
        have hbx : b = x := by simpa using hx
        subst hbx
        exact hdisj hxl1 (List.mem_cons_of_mem a hbl2)
      · simp only [mk_z3_step, List.mem_singleton] at hb
        have hba : b = a := by simpa using hb
        exact hal2 (hba ▸ hbl2)

/-- C1, witness for the amended theorem: the x64 configure failure aborts
before x86/arm64 see any event, and an x86 install failure aborts before
arm64 is installed and before any packaging step. -/
theorem C1_witness :
    ((main_run cfg0 wC1 Scope.allArchs =
        ((run_loop (mk_build_dir_step cfg0 wC1) []).1 ++
          (mk_build_dir_step cfg0 wC1 Arch.x64).1, false) ∧
      ∀ e ∈ (main_run cfg0 wC1 Scope.allArchs).1,
        evArch e ∈ ([] : List Arch) ∨ evArch e = Arch.x64) ∧
     (main_run cfg0 wInstFail Scope.allArchs =
        ((run_loop (mk_build_dir_step cfg0 wInstFail) ARCHS).1 ++
          ((run_loop (mk_z3_step wInstFail) [Arch.x64]).1 ++
            (mk_z3_step wInstFail Arch.x86).1), false) ∧
      (∀ b, Event.copyLicense b ∉ (main_run cfg0 wInstFail Scope.allArchs).1) ∧
      ∀ b ∈ [Arch.arm64],
        Event.execInstall b ∉ (main_run cfg0 wInstFail Scope.allArchs).1)) :=
  ⟨(C1_amended cfg0 wC1 [] [Arch.x86, Arch.arm64] Arch.x64 rfl).1
      (by simp) (by decide),
   (C1_amended cfg0 wInstFail [Arch.x64] [Arch.arm64] Arch.x86 rfl).2
      (by intro b hb; fin_cases hb <;> decide)
      (by intro b hb; fin_cases hb; decide)
      (by decide)⟩

/-- C2, counterexample: in a fully successful all-architectures run the
x86 configure session starts (index 3 of the trace) before the x64 install
session (index 6) — x64's pipeline has not run to completion before a
stage of x86's pipeline begins, so the claimed architecture-major order is
false. -/
theorem C2_counterexample :
    Event.execConfigure Arch.x86 ∈ (main_run cfgZip wOk Scope.allArchs).1 ∧
    Event.execInstall Arch.x64 ∈ (main_run cfgZip wOk Scope.allArchs).1 ∧
    (main_run cfgZip wOk Scope.allArchs).1.indexOf
        (Event.execConfigure Arch.x86) <
      (main_run cfgZip wOk Scope.allArchs).1.indexOf
        (Event.execInstall Arch.x64) := by
  decide

/-- C2, amended: execution is sequential but STAGE-major, not
architecture-major — in a successful all-architectures run, every
configure session (x64, x86, arm64 in order) runs before any install
session, all installs before all license copies, then all runtime copies,
then (with archiving enabled) all archive writes. -/
theorem C2_amended (c : Config) (w : World)
    (hconf : ∀ a, w.configured a = false)
    (hgit : c.git_hash = false)
    (hexec : ∀ a k, w.execResult a k = some 0)
    (hrt : ∀ a : Arch, (vs_runtime_files a.name w.walk).isEmpty = false)
    (hzip : c.zip_build_outputs = true) :
    main_run c w Scope.allArchs =
      ([Event.mkdirE Arch.x64, Event.execConfigure Arch.x64,
        Event.mkdirE Arch.x86, Event.execConfigure Arch.x86,
        Event.mkdirE Arch.arm64, Event.execConfigure Arch.arm64,
        Event.execInstall Arch.x64, Event.execInstall Arch.x86,
        Event.execInstall Arch.arm64,
        Event.copyLicense Arch.x64, Event.copyLicense Arch.x86,
        Event.copyLicense Arch.arm64,
        Event.copyRuntime Arch.x64, Event.copyRuntime Arch.x86,
        Event.copyRuntime Arch.arm64,
        Event.writeZip Arch.x64
          ⟨"z3-" ++ z3_version c ++ "-" ++ Arch.x64.name ++ "-win" ++ ".zip",
           Compression.deflated, []⟩,
        Event.writeZip Arch.x86
          ⟨"z3-" ++ z3_version c ++ "-" ++ Arch.x86.name ++ "-win" ++ ".zip",
           Compression.deflated, []⟩,
        Event.writeZip Arch.arm64
          ⟨"z3-" ++ z3_version c ++ "-" ++ Arch.arm64.name ++ "-win" ++ ".zip",
           Compression.deflated, []⟩], true) := by
  simp [main_run, ARCHS, run_loop, seq2, mk_build_dir_step, mk_z3_step,
        cp_license_step, cp_vs_runtime_step, mk_zip_step, get_z3_name,
        cp_vs_runtime_result, exec_cmds, hconf, hgit, hzip, hexec, hrt]

/-- C2, witness for the amended theorem at the concrete successful world. -/
theorem C2_witness :
    main_run cfgZip wOk Scope.allArchs =
      ([Event.mkdirE Arch.x64, Event.execConfigure Arch.x64,
        Event.mkdirE Arch.x86, Event.execConfigure Arch.x86,
        Event.mkdirE Arch.arm64, Event.execConfigure Arch.arm64,
        Event.execInstall Arch.x64, Event.execInstall Arch.x86,
        Event.execInstall Arch.arm64,
        Event.copyLicense Arch.x64, Event.copyLicense Arch.x86,
        Event.copyLicense Arch.arm64,
        Event.copyRuntime Arch.x64, Event.copyRuntime Arch.x86,
        Event.copyRuntime Arch.arm64,
        Event.writeZip Arch.x64
          ⟨"z3-" ++ z3_version cfgZip ++ "-" ++ Arch.x64.name ++ "-win" ++ ".zip",
           Compression.deflated, []⟩,
        Event.writeZip Arch.x86
          ⟨"z3-" ++ z3_version cfgZip ++ "-" ++ Arch.x86.name ++ "-win" ++ ".zip",
           Compression.deflated, []⟩,
        Event.writeZip Arch.arm64
          ⟨"z3-" ++ z3_version cfgZip ++ "-" ++ Arch.arm64.name ++ "-win" ++ ".zip",
           Compression.deflated, []⟩], true) :=
  C2_amended cfgZip wOk (fun _ => rfl) rfl (fun _ _ => rfl)
    (by intro a; cases a <;> decide) rfl

/-- C3: the x64-only run with no optional components, archiving on,
default version "4", no revision, against an already-configured workspace
raises nothing, skips the configure session, runs the install session, and
creates an archive file named `z3-4-x64-win.zip` (opened with deflate
compression; the entry walk dies on the undefined `dist_path` name and is
swallowed, so the archive holds no entries). -/
theorem C3_scenario :
    main_run cfgC3 wC3 Scope.x64only =
      ([Event.execInstall Arch.x64, Event.copyLicense Arch.x64,
        Event.copyRuntime Arch.x64,
        Event.writeZip Arch.x64
          ⟨"z3-4-x64-win.zip", Compression.deflated, []⟩], true) ∧
    Event.execConfigure Arch.x64 ∉ (main_run cfgC3 wC3 Scope.x64only).1 := by
  decide

/-- C4, counterexample: in the single-architecture pipeline the license
copy (trace index 3) happens BEFORE the runtime copy (index 4), so the
claimed order (runtime files first, then license) is false. -/
theorem C4_counterexample :
    Event.copyLicense Arch.x64 ∈ (build_for_arch cfgZip wOk Arch.x64).1 ∧
    Event.copyRuntime Arch.x64 ∈ (build_for_arch cfgZip wOk Arch.x64).1 ∧
    (build_for_arch cfgZip wOk Arch.x64).1.indexOf
        (Event.copyLicense Arch.x64) <
      (build_for_arch cfgZip wOk Arch.x64).1.indexOf
        (Event.copyRuntime Arch.x64) := by
  decide

/-- C4, amended: after the install step, the packaging steps run in the
order license copy into the named distribution root, THEN runtime-file
copy into the install `bin` subdirectory, then (with archiving enabled)
the archive write. -/
theorem C4_amended (c : Config) (w : World) (a : Arch)
    (hconf : w.configured a = true) (hforce : c.force_mk = false)
    (hgit : c.git_hash = false)
    (hinst : w.execResult a SESS_INSTALL = some 0)
    (hrt : (vs_runtime_files a.name w.walk).isEmpty = false)
    (hzip : c.zip_build_outputs = true) :
    build_for_arch c w a =
      ([Event.execInstall a, Event.copyLicense a, Event.copyRuntime a,
        Event.writeZip a
          ⟨"z3-" ++ z3_version c ++ "-" ++ a.name ++ "-win" ++ ".zip",
           Compression.deflated, []⟩], true) := by
  simp [build_for_arch, mk_build_dir_step, mk_z3_step, cp_license_step,
        cp_vs_runtime_step, mk_zip_step, get_z3_name, cp_vs_runtime_result,
        exec_cmds, seq2, hconf, hforce, hgit, hinst, hrt, hzip]

/-- C4, witness for the amended theorem at the concrete scenario. -/
theorem C4_witness :
    build_for_arch cfgC3 wC3 Arch.x64 =
      ([Event.execInstall Arch.x64, Event.copyLicense Arch.x64,
        Event.copyRuntime Arch.x64,
        Event.writeZip Arch.x64
          ⟨"z3-" ++ z3_version cfgC3 ++ "-" ++ Arch.x64.name ++ "-win" ++ ".zip",
           Compression.deflated, []⟩], true) :=
  C4_amended cfgC3 wC3 Arch.x64 rfl rfl rfl rfl (by decide) rfl

/-- C5, counterexample: with `--githash` and hash `abc123`, the archive is
named `z3-4.abc123-x64-win.zip` — the revision hash is joined to the
version by `'.'`, not by the claimed `'-'` separator. -/
theorem C5_counterexample :
    mk_zip_step cfgGit wGit Arch.x64 =
      ([Event.writeZip Arch.x64
          ⟨"z3-4.abc123-x64-win.zip", Compression.deflated, []⟩], true) ∧
    "z3-4.abc123-x64-win.zip" ≠ "z3-4-abc123-x64-win.zip" := by
  decide

/-- C5, amended: the archive name is `z3-<version>[.<revhash>]-<arch>-win.zip`
— the optional revision hash is joined to the version by `'.'`; the archive
is opened with deflate compression from inside the install tree, and (the
entry walk failing on the undefined `dist_path` name, suppressed) no
entries are written. -/
theorem C5_amended (c : Config) (w : World) (a : Arch) (h : String)
    (hok : get_git_hash w.gitOut = Except.ok h) :
    (c.git_hash = true →
      mk_zip_step c w a =
        ([Event.writeZip a
            ⟨"z3-" ++ z3_version c ++ "." ++ h ++ "-" ++ a.name ++ "-win" ++ ".zip",
             Compression.deflated, []⟩], true)) ∧
    (c.git_hash = false →
      mk_zip_step c w a =
        ([Event.writeZip a
            ⟨"z3-" ++ z3_version c ++ "-" ++ a.name ++ "-win" ++ ".zip",
             Compression.deflated, []⟩], true)) := by
  constructor <;> intro hg <;>
    simp [mk_zip_step, get_z3_name, hg, hok, Except.map]

/-- C5, witness for the amended theorem at hash `abc123`. -/
theorem C5_witness :
    mk_zip_step cfgGit wGit Arch.x64 =
      ([Event.writeZip Arch.x64
          ⟨"z3-" ++ z3_version cfgGit ++ "." ++ "abc123" ++ "-" ++
             Arch.x64.name ++ "-win" ++ ".zip",
           Compression.deflated, []⟩], true) :=
  (C5_amended cfgGit wGit Arch.x64 "abc123" (by rfl)).1 rfl

/-- C6: the runtime locator returns exactly the `*.dll`-glob files whose
directory contains the platform token and a "CRT"/"MP" token, contains
neither "onecore" nor "debug", and whose filename matches one of the four
runtime patterns; it errors exactly when that set is empty.  Concretely:
`vcruntime140.dll` under an x64 CRT directory is located for an x64 query,
the same file under a `debug` path segment is excluded, and an arm64 query
against the x64-only tree raises the no-runtime-files error. -/
theorem C6_runtime_locator :
    (∀ platform walk,
      vs_runtime_files platform walk = spec_runtime_files platform walk) ∧
    (∀ platform walk, isErrRT (cp_vs_runtime_result platform walk) =
      (spec_runtime_files platform walk).isEmpty) ∧
    vs_runtime_files "x64" crtWalk = [crtRoot ++ "\\vcruntime140.dll"] ∧
    vs_runtime_files "x64" debugWalk = [] ∧
    cp_vs_runtime_result "arm64" crtWalk =
      Except.error "Did not find any runtime files to include" := by
  refine ⟨fun p wk => scan_walk_eq p wk, ?_, by decide, by decide, rfl⟩
  intro platform walk
  unfold cp_vs_runtime_result
  rw [show vs_runtime_files platform walk = spec_runtime_files platform walk
    from scan_walk_eq platform walk]
  cases hh : (spec_runtime_files platform walk).isEmpty <;> simp [isErrRT, hh]

/-- C7: when revision inclusion is requested and the git query fails or its
output does not parse into exactly a (hash, ref-name) pair, `mk_build_dir`
raises with only the directory creation performed — the configure session
(`exec_cmds`) is never reached, so no toolchain process is spawned. -/
theorem C7_revision_guard (c : Config) (w : World) (a : Arch)
    (hgit : c.git_hash = true)
    (hneed : (!(w.configured a) || c.force_mk) = true)
    (hfail : ∃ msg, get_git_hash w.gitOut = Except.error msg) :
    mk_build_dir_step c w a = ([Event.mkdirE a], false) ∧
    Event.execConfigure a ∉ (mk_build_dir_step c w a).1 := by
  obtain ⟨msg, hmsg⟩ := hfail
  have heq : mk_build_dir_step c w a = ([Event.mkdirE a], false) := by
    simp [mk_build_dir_step, hgit, hneed, hmsg]
  refine ⟨heq, ?_⟩
  rw [heq]
  simp

/-- C7, witness: a git query returning zero refs (empty output) fails the
parse and aborts before any toolchain session. -/
theorem C7_witness :
    mk_build_dir_step cfgGit wGitFail Arch.x64 =
      ([Event.mkdirE Arch.x64], false) ∧
    Event.execConfigure Arch.x64 ∉
      (mk_build_dir_step cfgGit wGitFail Arch.x64).1 :=
  C7_revision_guard cfgGit wGitFail Arch.x64 rfl rfl
    ⟨"Unexpected git output ", rfl⟩

/-- C8: on an already-configured workspace without force-reconfigure,
`mk_build_dir` performs no effect at all — no directory creation, no
session — and returns successfully, so the configure step is skipped and a
second call is likewise effect-free. -/
theorem C8_idempotent (c : Config) (w : World) (a : Arch)
    (hconf : w.configured a = true) (hforce : c.force_mk = false) :
    mk_build_dir_step c w a = ([], true) := by
  simp [mk_build_dir_step, hconf, hforce]

/-- C8, witness at the already-configured scenario world. -/
theorem C8_witness : mk_build_dir_step cfgC3 wC3 Arch.x64 = ([], true) :=
  C8_idempotent cfgC3 wC3 Arch.x64 rfl rfl

/-- C9, counterexample: enabling the Java component adds FOUR flags to the
cmake command pieces (build-enable, install-enable and two install-subdir
flags), not exactly two as claimed. -/
theorem C9_counterexample :
    (cmake_pieces cfgJavaOnly "").length =
      (cmake_pieces cfgNoComp "").length + 4 ∧
    ¬ (cmake_pieces cfgJavaOnly "").length =
      (cmake_pieces cfgNoComp "").length + 2 := by
  decide

/-- C9, amended: the command construction is a pure function of
(configuration, architecture, resolved hash) — determinism is inherent in
the functional embedding — and enabling an optional component inserts its
contiguous flag block (2 flags for .NET, 4 for Java, 3 for Python) at its
fixed position, neither removing nor reordering any unrelated flag. -/
theorem C9_amended (c : Config) (h : String) :
    (cmake_pieces { c with dotnet_core_enabled := true } h =
      insertAt 1 dotnetFlags
        (cmake_pieces { c with dotnet_core_enabled := false } h)) ∧
    (cmake_pieces { c with java_enabled := true } h =
      insertAt (1 + (if c.dotnet_core_enabled then 2 else 0)) javaFlags
        (cmake_pieces { c with java_enabled := false } h)) ∧
    (cmake_pieces { c with python_enabled := true } h =
      insertAt (1 + (if c.dotnet_core_enabled then 2 else 0)
                  + (if c.java_enabled then 4 else 0)) pythonFlags
        (cmake_pieces { c with python_enabled := false } h)) ∧
    dotnetFlags.length = 2 ∧ javaFlags.length = 4 ∧ pythonFlags.length = 3 := by
  obtain ⟨dn, jv, py, gh, zz, fm, av⟩ := c
  cases dn <;> cases jv <;> cases py <;> cases gh <;>
    simp [cmake_pieces, insertAt, dotnetFlags, javaFlags, pythonFlags,
      cmakeTail]

/-- C10: the command executor is total — it writes each command in order on
its own line into the script, an exception from the external invocation
yields exit status 1, and that outcome is indistinguishable from a session
that ran and exited with status 1. -/
theorem C10_exec (cmds : List String) (r : Option Int) :
    (exec_cmds cmds r).1 = script_spec cmds ∧
    (exec_cmds cmds none).2 = 1 ∧
    exec_cmds cmds none = exec_cmds cmds (some 1) := by
  refine ⟨?_, rfl, rfl⟩
  show write_script cmds "" = script_spec cmds
  rw [write_script_eq]
  exact String.empty_append _

end MkWinDist
